import Mathlib

/-!
Shallow embedding of `src/tools/interopserver/InteropServer.h` from the
msquic repository: the HTTP-over-QUIC interop server header. The embedding
models the send buffer (`HttpSendBuffer`), the request abort path
(`HttpRequest::Abort`), the reference-counted connection
(`HttpConnection`), the connection event handler
(`HttpConnection::QuicCallbackHandler`), and the startup sequence of
`HttpSession` / `HttpServer` with the `EXIT_ON_FAILURE` macro.

Machine integers are modelled as `Nat` with explicit reduction modulo
`2 ^ 32` or `2 ^ 64` exactly where the C arithmetic wraps; the signed
`long` reference count is modelled as `Int`. Calls into the external
MsQuic API table are modelled as emitted elements of an `MsQuicCall`
trace.
-/

/-- `#define MAX_HTTP_REQUESTS_PER_CONNECTION 100` (InteropServer.h line 28). -/
def MAX_HTTP_REQUESTS_PER_CONNECTION : Nat := 100

/-- `#define IO_SIZE 64 * 1024` (InteropServer.h line 33). -/
def IO_SIZE : Nat := 64 * 1024

/-- The modulus of `uint32_t` arithmetic. -/
def UINT32_MOD : Nat := 2 ^ 32

/-- The modulus of `uint64_t` arithmetic. -/
def UINT64_MOD : Nat := 2 ^ 64

/-- Value of `QUIC_STREAM_SHUTDOWN_FLAG_ABORT` from the external msquic
API header (abort send and receive directions). The exact numeric value
is immaterial to the development; it is an opaque tag of the call. -/
def QUIC_STREAM_SHUTDOWN_FLAG_ABORT : Nat := 6

/-- Value of `QUIC_STREAM_OPEN_FLAG_UNIDIRECTIONAL` from the external
msquic API header: the bit in the stream open flags that declares the
stream unidirectional. -/
def QUIC_STREAM_OPEN_FLAG_UNIDIRECTIONAL : Nat := 1

/-- Tag of `QUIC_PARAM_LEVEL_SESSION` from the external msquic API. -/
def QUIC_PARAM_LEVEL_SESSION : Nat := 4

/-- Tag of `QUIC_PARAM_SESSION_PEER_BIDI_STREAM_COUNT` from the external
msquic API. -/
def QUIC_PARAM_SESSION_PEER_BIDI_STREAM_COUNT : Nat := 2

/-- Tag of `QUIC_PARAM_SESSION_PEER_UNIDI_STREAM_COUNT` from the external
msquic API. -/
def QUIC_PARAM_SESSION_PEER_UNIDI_STREAM_COUNT : Nat := 3

/-- Tag of `QUIC_SEND_RESUMPTION_FLAG_FINAL` from the external msquic API. -/
def QUIC_SEND_RESUMPTION_FLAG_FINAL : Nat := 1

/-- A call submitted to the external MsQuic API table. The interop server
interacts with the transport only through these calls, so the observable
effect of an operation is its state change plus the trace of calls it
emits. -/
inductive MsQuicCall : Type
  /-- `MsQuic->StreamShutdown(stream, flags, errorCode)`. -/
  | StreamShutdown (stream : Nat) (flags : Nat) (errorCode : Nat)
  /-- `MsQuic->ConnectionSendResumptionTicket(conn, flags, dataLength, data)`
  with null data. -/
  | ConnectionSendResumptionTicket (conn : Nat) (flags : Nat) (dataLength : Nat)
  /-- `MsQuic->ConnectionClose(conn)`. -/
  | ConnectionClose (conn : Nat)
  /-- `MsQuic->SetCallbackHandler(conn, handler, context)`. -/
  | SetCallbackHandler (conn : Nat)
  /-- `MsQuic->SessionOpen(...)`. -/
  | SessionOpen
  /-- `MsQuic->SetParam(session, level, param, bufferLength, buffer)`,
  recording the parameter level, identifier, buffer length in bytes and
  the numeric value pointed to. -/
  | SetParam (level : Nat) (param : Nat) (bufferLength : Nat) (value : Nat)
  /-- `MsQuic->ListenerOpen(...)`. -/
  | ListenerOpen
  /-- `MsQuic->ListenerStart(listener, localAddress)`. -/
  | ListenerStart
  deriving DecidableEq, Repr

/-! ## HttpSendBuffer (InteropServer.h lines 46-64)

The struct holds `QUIC_SEND_FLAGS Flags`, a `QUIC_BUFFER QuicBuffer`
whose `Buffer` pointer is fixed to the embedded `uint8_t RawBuffer[IO_SIZE]`
and whose `Length` is a `uint32_t`, modelled here as a `Nat` together
with the raw byte store as a function from index to byte. -/

structure HttpSendBuffer : Type where
  /-- `QUIC_SEND_FLAGS Flags`, an opaque numeric flag set. -/
  Flags : Nat
  /-- `QuicBuffer.Length`, a `uint32_t`. -/
  Length : Nat
  /-- Contents of `RawBuffer[IO_SIZE]`: byte at each index. -/
  Raw : Nat → Nat

/-- The `HttpSendBuffer` constructor: `Flags = QUIC_SEND_FLAG_NONE`
(value 0), `QuicBuffer.Length = 0`; the raw array is uninitialized in C,
modelled as all zero. -/
def HttpSendBuffer.init : HttpSendBuffer :=
  { Flags := 0, Length := 0, Raw := fun _ => 0 }

/-- `bool IsFull() const { return QuicBuffer.Length == IO_SIZE; }` -/
def HttpSendBuffer.IsFull (b : HttpSendBuffer) : Bool :=
  b.Length == IO_SIZE

/-- `bool HasRoom(uint64_t Length) const { return Length + QuicBuffer.Length < IO_SIZE; }`
The addition is performed in `uint64_t`, i.e. modulo `2 ^ 64`: the
`uint32_t` member `QuicBuffer.Length` is promoted to `uint64_t` and added
to the `uint64_t` parameter. -/
def HttpSendBuffer.HasRoom (b : HttpSendBuffer) (len : Nat) : Bool :=
  (len + b.Length) % UINT64_MOD < IO_SIZE

/-- `void Write(const void* Buffer, uint32_t Length)`:
`memcpy(QuicBuffer.Buffer + QuicBuffer.Length, Buffer, Length)` followed
by `QuicBuffer.Length += Length` (a `uint32_t` addition, modulo `2 ^ 32`).
The memcpy writes the source bytes at indices
`[QuicBuffer.Length, QuicBuffer.Length + Length)` of the raw store; it
performs no bounds check of its own. -/
def HttpSendBuffer.Write (b : HttpSendBuffer) (src : Nat → Nat) (len : Nat) :
    HttpSendBuffer :=
  { b with
    Raw := fun i => if b.Length ≤ i ∧ i < b.Length + len then src (i - b.Length) else b.Raw i
    Length := (b.Length + len) % UINT32_MOD }

/-- The index range written by the unguarded `memcpy` inside `Write`:
destination indices `QuicBuffer.Length ≤ i < QuicBuffer.Length + len`
of `RawBuffer`. -/
def HttpSendBuffer.memcpyDest (b : HttpSendBuffer) (len i : Nat) : Prop :=
  b.Length ≤ i ∧ i < b.Length + len

instance (b : HttpSendBuffer) (len i : Nat) : Decidable (b.memcpyDest len i) :=
  inferInstanceAs (Decidable (_ ∧ _))

/-- `void Reset() { QuicBuffer.Length = 0; }` -/
def HttpSendBuffer.Reset (b : HttpSendBuffer) : HttpSendBuffer :=
  { b with Length := 0 }

/-- The send-buffer invariant stated by the spec: length never exceeds
the fixed capacity `IO_SIZE` (64 KiB). -/
def HttpSendBuffer.lenInv (b : HttpSendBuffer) : Prop :=
  b.Length ≤ IO_SIZE

instance (b : HttpSendBuffer) : Decidable b.lenInv :=
  inferInstanceAs (Decidable (_ ≤ _))

/-! ## HttpRequest error codes and abort path (InteropServer.h lines 68-96) -/

/-- `enum HttpRequestErrorCodes` (InteropServer.h lines 68-77): the
8-value enumeration of stream abort reason codes, with the C values
0 through 7 in declaration order. -/
inductive HttpRequestErrorCodes : Type
  | HttpRequestNoError
  | HttpRequestNotGet
  | HttpRequestFoundDots
  | HttpRequestGetTooBig
  | HttpRequestSendFailed
  | HttpRequestRecvNoRoom
  | HttpRequestPeerAbort
  | HttpRequestExtraRecv
  deriving DecidableEq, Repr

/-- The C numeric value of each enumerator (first is 0, each next one
more). -/
def HttpRequestErrorCodes.toNat : HttpRequestErrorCodes → Nat
  | .HttpRequestNoError => 0
  | .HttpRequestNotGet => 1
  | .HttpRequestFoundDots => 2
  | .HttpRequestGetTooBig => 3
  | .HttpRequestSendFailed => 4
  | .HttpRequestRecvNoRoom => 5
  | .HttpRequestPeerAbort => 6
  | .HttpRequestExtraRecv => 7

/-- The data members of `struct HttpRequest` (InteropServer.h lines
79-96). The connection back pointer and stream handle are modelled as
numeric handles; `FILE* File` as an optional handle. The constructor
and the remaining member functions live in the cpp file and are not
needed for the abort path. -/
structure HttpRequest : Type where
  /-- `HttpConnection *Connection`. -/
  Connection : Nat
  /-- `HQUIC QuicStream`. -/
  QuicStream : Nat
  /-- `FILE* File`. -/
  File : Option Nat
  /-- `HttpSendBuffer Buffer`. -/
  Buffer : HttpSendBuffer
  /-- `bool Shutdown`. -/
  Shutdown : Bool
  /-- `bool WriteHttp11Header`. -/
  WriteHttp11Header : Bool

/-- `void Abort(HttpRequestErrorCodes ErrorCode)` (InteropServer.h lines
90-96): sets `Shutdown = true`, then calls
`MsQuic->StreamShutdown(QuicStream, QUIC_STREAM_SHUTDOWN_FLAG_ABORT, ErrorCode)`.
There is no conditional in the body. Returns the updated request state
and the trace of MsQuic calls the invocation emits. -/
def HttpRequest.Abort (r : HttpRequest) (e : HttpRequestErrorCodes) :
    HttpRequest × List MsQuicCall :=
  ({ r with Shutdown := true },
   [MsQuicCall.StreamShutdown r.QuicStream QUIC_STREAM_SHUTDOWN_FLAG_ABORT e.toNat])

/-- Invoking `Abort` twice in a row with the two given error codes:
state after both invocations paired with the concatenated call trace. -/
def HttpRequest.abortTwice (r : HttpRequest) (e1 e2 : HttpRequestErrorCodes) :
    HttpRequest × List MsQuicCall :=
  let p1 := r.Abort e1
  let p2 := p1.1.Abort e2
  (p2.1, p1.2 ++ p2.2)

/-- A concrete freshly created request state used for counterexamples:
not shutting down, empty buffer, no file. -/
def HttpRequest.sample : HttpRequest :=
  { Connection := 0, QuicStream := 42, File := none,
    Buffer := HttpSendBuffer.init, Shutdown := false,
    WriteHttp11Header := false }

/-! ## HttpConnection (InteropServer.h lines 121-166)

`struct HttpConnection` owns `HQUIC QuicConnection` and a `long RefCount`.
The constructor sets `RefCount` to 1 and registers the callback handler;
`AddRef` is `InterlockedIncrement(&RefCount)`; `Release` is
`InterlockedDecrement(&RefCount)` followed by `delete this` exactly when
the decremented value is 0; the destructor calls
`MsQuic->ConnectionClose(QuicConnection)`.

The lifetime is modelled as a state machine: a state carries the count,
whether the object has been destroyed, and the trace of MsQuic calls
emitted so far. Once destroyed the C++ object no longer exists, so the
model freezes the state at that point. -/

/-- A reference-count operation invoked on an `HttpConnection`. -/
inductive ConnOp : Type
  | addRef
  | release
  deriving DecidableEq, Repr

/-- The observable state of one `HttpConnection` object. -/
structure ConnState : Type where
  /-- The `long RefCount` member (signed, modelled as `Int`). -/
  RefCount : Int
  /-- Whether `delete this` has executed. -/
  Destroyed : Bool
  /-- Trace of MsQuic calls emitted by the object so far. -/
  Calls : List MsQuicCall
  deriving DecidableEq, Repr

/-- One `AddRef` or `Release` on the connection whose handle is `cid`.
`AddRef` increments the count. `Release` decrements it and, exactly when
the decremented value is 0, runs the destructor (emitting
`ConnectionClose`) and marks the object destroyed. Operations on an
already destroyed object are undefined behaviour in C++; the model
freezes the state. -/
def HttpConnection.step (cid : Nat) (s : ConnState) (op : ConnOp) : ConnState :=
  if s.Destroyed then s
  else
    match op with
    | .addRef => { s with RefCount := s.RefCount + 1 }
    | .release =>
        if s.RefCount - 1 = 0 then
          { RefCount := s.RefCount - 1, Destroyed := true,
            Calls := s.Calls ++ [MsQuicCall.ConnectionClose cid] }
        else { s with RefCount := s.RefCount - 1 }

/-- A `QUIC_CONNECTION_EVENT` delivered to
`HttpConnection::QuicCallbackHandler`, restricted to the payload the
handler reads. `other` stands for every event type the switch ignores. -/
inductive QuicConnectionEvent : Type
  /-- `QUIC_CONNECTION_EVENT_CONNECTED`. -/
  | connected
  /-- `QUIC_CONNECTION_EVENT_PEER_STREAM_STARTED` with
  `Event->PEER_STREAM_STARTED.Stream` and `.Flags`. -/
  | peerStreamStarted (stream : Nat) (flags : Nat)
  /-- `QUIC_CONNECTION_EVENT_SHUTDOWN_COMPLETE`. -/
  | shutdownComplete
  /-- Any other event type: falls through the switch. -/
  | other
  deriving DecidableEq, Repr

/-- The constructor arguments of one `new HttpRequest(...)` expression:
`HttpRequest(HttpConnection *connection, HQUIC stream, bool Unidirectional)`
(InteropServer.h line 80). -/
structure NewRequest : Type where
  /-- The owning connection passed as `this`. -/
  connection : Nat
  /-- The stream handle of the event. -/
  stream : Nat
  /-- The `Unidirectional` flag. -/
  Unidirectional : Bool
  deriving DecidableEq, Repr

/-- `HttpConnection::QuicCallbackHandler` (InteropServer.h lines 141-165):
on `CONNECTED`, calls `ConnectionSendResumptionTicket` with
`QUIC_SEND_RESUMPTION_FLAG_FINAL`, data length 0; on
`PEER_STREAM_STARTED`, evaluates
`new HttpRequest(pThis, Event->PEER_STREAM_STARTED.Stream,
Event->PEER_STREAM_STARTED.Flags & QUIC_STREAM_OPEN_FLAG_UNIDIRECTIONAL)`
(the bitwise-and result converts to `bool` as a nonzero test); on
`SHUTDOWN_COMPLETE`, calls `pThis->Release()`. Returns the updated
connection state, the MsQuic calls emitted directly by the handler, and
the list of `HttpRequest` constructions performed. -/
def HttpConnection.QuicCallbackHandler (cid : Nat) (s : ConnState)
    (ev : QuicConnectionEvent) : ConnState × List MsQuicCall × List NewRequest :=
  match ev with
  | .connected =>
      (s, [MsQuicCall.ConnectionSendResumptionTicket cid QUIC_SEND_RESUMPTION_FLAG_FINAL 0], [])
  | .peerStreamStarted stream flags =>
      (s, [],
       [{ connection := cid, stream := stream,
          Unidirectional := (flags &&& QUIC_STREAM_OPEN_FLAG_UNIDIRECTIONAL) ≠ 0 }])
  | .shutdownComplete => (HttpConnection.step cid s .release, [], [])
  | .other => (s, [], [])

/-! ## Startup: HttpServer and HttpSession constructors with EXIT_ON_FAILURE
(InteropServer.h lines 38-44, 168-180, 204-238)

The `HttpSession` constructor performs, in order: `SessionOpen`, a
`SetParam` setting the peer bidirectional stream count to
`MAX_HTTP_REQUESTS_PER_CONNECTION` (a `uint16_t`, buffer length 2), a
`SetParam` setting the peer unidirectional stream count to 1, and then
constructs `HttpServer`, whose constructor performs `ListenerOpen` then
`ListenerStart`. Every one of these five calls is wrapped in
`EXIT_ON_FAILURE(x)`, which on a failed status prints
`__FILE__:__LINE__ #x failed!` and calls `exit(1)`, so no later call
runs. Which calls fail is decided by the external transport, modelled
as a function from the step to a failure flag (the value of
`QUIC_FAILED(_Status)` for that call). -/

/-- The five startup operations, in program order. -/
inductive StartupStep : Type
  | sessionOpen
  | setParamBidiCount
  | setParamUnidiCount
  | listenerOpen
  | listenerStart
  deriving DecidableEq, Repr

/-- The MsQuic call each startup step submits. The two `SetParam` calls
pass `sizeof(uint16_t) = 2` as buffer length and point at the local
`uint16_t` values `MAX_HTTP_REQUESTS_PER_CONNECTION` and `1`. -/
def StartupStep.call : StartupStep → MsQuicCall
  | .sessionOpen => .SessionOpen
  | .setParamBidiCount =>
      .SetParam QUIC_PARAM_LEVEL_SESSION QUIC_PARAM_SESSION_PEER_BIDI_STREAM_COUNT 2
        MAX_HTTP_REQUESTS_PER_CONNECTION
  | .setParamUnidiCount =>
      .SetParam QUIC_PARAM_LEVEL_SESSION QUIC_PARAM_SESSION_PEER_UNIDI_STREAM_COUNT 2 1
  | .listenerOpen => .ListenerOpen
  | .listenerStart => .ListenerStart

/-- Outcome of running the startup sequence: either every step
succeeded, or the process exited with the given exit code and the
`EXIT_ON_FAILURE` diagnostic names the failing step (`__FILE__`,
`__LINE__` and the stringised call identify it). -/
inductive StartupResult : Type
  | ok
  | exited (code : Nat) (failing : StartupStep)
  deriving DecidableEq, Repr

/-- Run a list of startup steps under `EXIT_ON_FAILURE`: each step
submits its call; if the transport reports failure for that step, the
process exits with code 1 naming the step, and no further step is
executed. Returns the trace of calls actually submitted and the result. -/
def runStartup (failed : StartupStep → Bool) :
    List StartupStep → List MsQuicCall × StartupResult
  | [] => ([], .ok)
  | s :: rest =>
      if failed s then ([s.call], .exited 1 s)
      else
        let p := runStartup failed rest
        (s.call :: p.1, p.2)

/-- The steps of the `HttpSession` constructor (including the nested
`HttpServer` constructor), in program order. -/
def HttpSession.startupSteps : List StartupStep :=
  [.sessionOpen, .setParamBidiCount, .setParamUnidiCount, .listenerOpen, .listenerStart]

/-- Constructing an `HttpSession` under a given transport failure
behaviour. -/
def HttpSession.construct (failed : StartupStep → Bool) :
    List MsQuicCall × StartupResult :=
  runStartup failed HttpSession.startupSteps

/-! ## Theorems about the send buffer -/

/-- Shared characterisation of `HasRoom`: whenever the `uint64_t` sum
does not overflow, `HasRoom` answers true exactly when the exact sum is
strictly below the capacity. -/
theorem HttpSendBuffer.hasRoom_char (b : HttpSendBuffer) (n : Nat)
    (h : n + b.Length < UINT64_MOD) :
    b.HasRoom n = true ↔ b.Length + n < IO_SIZE := by
  unfold HttpSendBuffer.HasRoom
  rw [Nat.mod_eq_of_lt h]
  simp only [decide_eq_true_eq]
  omega

/-- C4 counterexample: `HasRoom` is not the exact comparison
`length + n < 65536` for every requested size `n`. The addition is
`uint64_t` arithmetic, so at buffer length 1 and
`n = 2 ^ 64 - 1` the sum wraps to 0 and `HasRoom` answers true even
though the exact sum `2 ^ 64` is far above the capacity. -/
theorem hasRoom_exact_counterexample :
    (HttpSendBuffer.init.Write (fun _ => 0) 1).HasRoom (UINT64_MOD - 1) = true
    ∧ ¬ ((HttpSendBuffer.init.Write (fun _ => 0) 1).Length + (UINT64_MOD - 1) < IO_SIZE) :=
  ⟨by decide, by decide⟩

/-- C4 (amended): whenever the `uint64_t` sum does not overflow, i.e.
`n + length < 2 ^ 64`, `HasRoom(n)` answers true exactly when
`length + n < 65536` (strictly below the fixed capacity `IO_SIZE`). -/
theorem hasRoom_iff_exact (b : HttpSendBuffer) (n : Nat)
    (h : n + b.Length < UINT64_MOD) :
    b.HasRoom n = true ↔ b.Length + n < IO_SIZE :=
  HttpSendBuffer.hasRoom_char b n h

/-- Witness for `hasRoom_iff_exact` at the freshly constructed buffer and
`n = 3`. -/
theorem hasRoom_iff_exact_witness :
    (3 + HttpSendBuffer.init.Length < UINT64_MOD)
    ∧ (HttpSendBuffer.init.HasRoom 3 = true ↔
        HttpSendBuffer.init.Length + 3 < IO_SIZE) :=
  ⟨by decide, hasRoom_iff_exact HttpSendBuffer.init 3 (by decide)⟩

/-- C3: the invariant `length ≤ IO_SIZE` holds after construction, is
restored by `Reset` (both set the length to 0), and is preserved by a
`Write` performed under the `HasRoom` guard, which in fact keeps the
length strictly below the capacity. `n < 2 ^ 32` is the type bound of
the `uint32_t` parameter of `Write`. -/
theorem sendBuffer_invariant (b : HttpSendBuffer) (src : Nat → Nat) (n : Nat)
    (hn : n < UINT32_MOD) (hb : b.lenInv) (hroom : b.HasRoom n = true) :
    HttpSendBuffer.init.lenInv ∧ HttpSendBuffer.init.Length = 0
    ∧ b.Reset.lenInv ∧ b.Reset.Length = 0
    ∧ (b.Write src n).Length < IO_SIZE ∧ (b.Write src n).lenInv := by
  have hb' : b.Length ≤ IO_SIZE := hb
  have hsum : n + b.Length < UINT64_MOD := by
    simp only [UINT32_MOD] at hn
    simp only [IO_SIZE] at hb'
    simp only [UINT64_MOD]
    omega
  have hexact : b.Length + n < IO_SIZE := (HttpSendBuffer.hasRoom_char b n hsum).mp hroom
  have hlen : (b.Write src n).Length = b.Length + n := by
    simp only [HttpSendBuffer.Write]
    exact Nat.mod_eq_of_lt (by simp only [IO_SIZE] at hexact; simp only [UINT32_MOD]; omega)
  refine ⟨by decide, rfl, ?_, rfl, ?_, ?_⟩
  · simp [HttpSendBuffer.Reset, HttpSendBuffer.lenInv]
  · rw [hlen]; exact hexact
  · simp only [HttpSendBuffer.lenInv]
    rw [hlen]
    exact Nat.le_of_lt hexact

/-- Witness for `sendBuffer_invariant` at the freshly constructed buffer,
a zero source and `n = 5`. -/
theorem sendBuffer_invariant_witness :
    (5 < UINT32_MOD ∧ HttpSendBuffer.init.lenInv
      ∧ HttpSendBuffer.init.HasRoom 5 = true)
    ∧ (HttpSendBuffer.init.Write (fun _ => 0) 5).Length < IO_SIZE :=
  ⟨⟨by decide, by decide, by decide⟩,
   (sendBuffer_invariant HttpSendBuffer.init (fun _ => 0) 5 (by decide) (by decide)
      (by decide)).2.2.2.2.1⟩

/-- C10: under the `HasRoom(n)` precondition (with the `uint32_t` bounds
on the length member and on the `Write` parameter), `Write` yields the
exact new length `length + n`, that length is below `IO_SIZE`, and every
index the unguarded `memcpy` writes lies inside the 65536-byte
`RawBuffer`. The precondition is necessary: without it the `memcpy` can
write index `IO_SIZE`, one past the storage, as the final two conjuncts
exhibit at a concrete oversized request that `HasRoom` rejects. -/
theorem write_within_bounds (b : HttpSendBuffer) (src : Nat → Nat) (n : Nat)
    (hn : n < UINT32_MOD) (hb : b.Length < UINT32_MOD) (hroom : b.HasRoom n = true) :
    (b.Write src n).Length = b.Length + n
    ∧ b.Length + n < IO_SIZE
    ∧ (∀ i, b.memcpyDest n i → i < IO_SIZE)
    ∧ HttpSendBuffer.init.HasRoom (IO_SIZE + 1) = false
    ∧ HttpSendBuffer.init.memcpyDest (IO_SIZE + 1) IO_SIZE := by
  have hsum : n + b.Length < UINT64_MOD := by
    simp only [UINT32_MOD] at hn hb
    simp only [UINT64_MOD]
    omega
  have hexact : b.Length + n < IO_SIZE := (HttpSendBuffer.hasRoom_char b n hsum).mp hroom
  have hlen : (b.Write src n).Length = b.Length + n := by
    simp only [HttpSendBuffer.Write]
    exact Nat.mod_eq_of_lt (by simp only [IO_SIZE] at hexact; simp only [UINT32_MOD]; omega)
  refine ⟨hlen, hexact, ?_, by decide, by decide⟩
  intro i hi
  exact Nat.lt_of_lt_of_le hi.2 (Nat.le_of_lt hexact)

/-- Witness for `write_within_bounds` at the freshly constructed buffer,
a zero source and `n = 5`. -/
theorem write_within_bounds_witness :
    (5 < UINT32_MOD ∧ HttpSendBuffer.init.Length < UINT32_MOD
      ∧ HttpSendBuffer.init.HasRoom 5 = true)
    ∧ (HttpSendBuffer.init.Write (fun _ => 0) 5).Length =
        HttpSendBuffer.init.Length + 5 :=
  ⟨⟨by decide, by decide, by decide⟩,
   (write_within_bounds HttpSendBuffer.init (fun _ => 0) 5 (by decide) (by decide)
      (by decide)).1⟩

/-! ## Theorems about the request abort path -/

/-- C1 counterexample: `Abort` contains no `ShuttingDown` guard, so a
second invocation is not a no-op: on a concrete fresh request, two
invocations submit two `StreamShutdown` abort requests to the transport,
not one. -/
theorem abort_no_guard_counterexample :
    (HttpRequest.sample.abortTwice .HttpRequestNoError .HttpRequestPeerAbort).2 =
      [MsQuicCall.StreamShutdown 42 QUIC_STREAM_SHUTDOWN_FLAG_ABORT 0,
       MsQuicCall.StreamShutdown 42 QUIC_STREAM_SHUTDOWN_FLAG_ABORT 6]
    ∧ ¬ ((HttpRequest.sample.abortTwice .HttpRequestNoError
          .HttpRequestPeerAbort).2.length = 1) :=
  ⟨by decide, by decide⟩

/-- C1 (amended): invoking `Abort` twice on the same request leaves the
request state identical to a single invocation (the `Shutdown` flag is
simply set again), but because the body has no `ShuttingDown` guard each
invocation submits its own abort-with-reason request to the transport:
two invocations submit exactly two stream-abort requests, one per call. -/
theorem abort_twice_behavior (r : HttpRequest) (e1 e2 : HttpRequestErrorCodes) :
    (r.abortTwice e1 e2).1 = (r.Abort e1).1
    ∧ (r.abortTwice e1 e2).1.Shutdown = true
    ∧ (r.abortTwice e1 e2).2 =
        [MsQuicCall.StreamShutdown r.QuicStream QUIC_STREAM_SHUTDOWN_FLAG_ABORT e1.toNat,
         MsQuicCall.StreamShutdown r.QuicStream QUIC_STREAM_SHUTDOWN_FLAG_ABORT e2.toNat] :=
  ⟨rfl, rfl, rfl⟩

/-- C6: for every request state and every one of the 8 error codes,
`Abort(code)` sets the `Shutdown` flag and submits exactly one
`StreamShutdown` call, with the abort flag and that code, on the stream
of the request. -/
theorem abort_emits_one_shutdown (r : HttpRequest) (e : HttpRequestErrorCodes) :
    (r.Abort e).1.Shutdown = true
    ∧ (r.Abort e).2 =
        [MsQuicCall.StreamShutdown r.QuicStream QUIC_STREAM_SHUTDOWN_FLAG_ABORT e.toNat]
    ∧ (r.Abort e).2.length = 1 :=
  ⟨rfl, rfl, rfl⟩

/-! ## Theorems about the connection event handler -/

/-- C5: a peer-stream-started event creates a request but performs no
`AddRef`: the connection state, and in particular its reference count,
is returned unchanged, while exactly one request construction happens. -/
theorem peer_stream_started_preserves_refcount (cid : Nat) (s : ConnState)
    (stream flags : Nat) :
    (HttpConnection.QuicCallbackHandler cid s (.peerStreamStarted stream flags)).1 = s
    ∧ (HttpConnection.QuicCallbackHandler cid s
        (.peerStreamStarted stream flags)).1.RefCount = s.RefCount
    ∧ (HttpConnection.QuicCallbackHandler cid s
        (.peerStreamStarted stream flags)).2.2.length = 1 :=
  ⟨rfl, rfl, rfl⟩

/-- C9: a peer-stream-started event constructs exactly one request, bound
to the connection and to the stream handle of the event, with the
unidirectional variant chosen exactly when the open flags have the
unidirectional bit; a connected event emits one resumption-ticket call
and constructs no request. -/
theorem handler_peer_stream_started_spec (cid : Nat) (s : ConnState)
    (stream flags : Nat) :
    (HttpConnection.QuicCallbackHandler cid s (.peerStreamStarted stream flags)).2.2 =
      [{ connection := cid, stream := stream,
         Unidirectional := decide ((flags &&& QUIC_STREAM_OPEN_FLAG_UNIDIRECTIONAL) ≠ 0) }]
    ∧ (decide ((flags &&& QUIC_STREAM_OPEN_FLAG_UNIDIRECTIONAL) ≠ 0) = true ↔
        flags &&& QUIC_STREAM_OPEN_FLAG_UNIDIRECTIONAL ≠ 0)
    ∧ (HttpConnection.QuicCallbackHandler cid s .connected).2.1 =
        [MsQuicCall.ConnectionSendResumptionTicket cid QUIC_SEND_RESUMPTION_FLAG_FINAL 0]
    ∧ (HttpConnection.QuicCallbackHandler cid s .connected).2.2 = [] :=
  ⟨rfl, by simp, rfl, rfl⟩

/-! ## Theorems about startup -/

/-- C7: when the transport reports success for every startup call, the
`HttpSession` constructor emits exactly the five-call trace: session
open, one `SetParam` fixing the peer bidirectional stream count to the
compile-time constant `MAX_HTTP_REQUESTS_PER_CONNECTION = 100`, one
`SetParam` fixing the peer unidirectional stream count to 1, listener
open and listener start; each stream-count parameter is set exactly
once. -/
theorem session_configures_stream_counts (failed : StartupStep → Bool)
    (h : ∀ s, failed s = false) :
    (HttpSession.construct failed).1 =
      [.SessionOpen,
       .SetParam QUIC_PARAM_LEVEL_SESSION QUIC_PARAM_SESSION_PEER_BIDI_STREAM_COUNT 2
         MAX_HTTP_REQUESTS_PER_CONNECTION,
       .SetParam QUIC_PARAM_LEVEL_SESSION QUIC_PARAM_SESSION_PEER_UNIDI_STREAM_COUNT 2 1,
       .ListenerOpen, .ListenerStart]
    ∧ MAX_HTTP_REQUESTS_PER_CONNECTION = 100
    ∧ (HttpSession.construct failed).1.count
        (.SetParam QUIC_PARAM_LEVEL_SESSION QUIC_PARAM_SESSION_PEER_BIDI_STREAM_COUNT 2
          MAX_HTTP_REQUESTS_PER_CONNECTION) = 1
    ∧ (HttpSession.construct failed).1.count
        (.SetParam QUIC_PARAM_LEVEL_SESSION QUIC_PARAM_SESSION_PEER_UNIDI_STREAM_COUNT 2 1) = 1
    ∧ (HttpSession.construct failed).2 = .ok := by
  have htrace : HttpSession.construct failed = HttpSession.construct (fun _ => false) := by
    simp [HttpSession.construct, HttpSession.startupSteps, runStartup, h]
  rw [htrace]
  refine ⟨by decide, rfl, by decide, by decide, by decide⟩

/-- Witness for `session_configures_stream_counts` at the all-success
environment. -/
theorem session_configures_stream_counts_witness :
    (∀ s : StartupStep, (fun _ : StartupStep => false) s = false)
    ∧ (HttpSession.construct (fun _ => false)).2 = .ok :=
  ⟨fun _ => rfl,
   (session_configures_stream_counts (fun _ => false) (fun _ => rfl)).2.2.2.2⟩

/-- Helper for C8: running the startup steps when every step of `l1`
succeeds and `step` fails submits exactly the calls of `l1` and of
`step`, exits with code 1 naming `step`, and runs nothing of `l2`. -/
theorem runStartup_first_failure (failed : StartupStep → Bool) :
    ∀ (l1 : List StartupStep) (step : StartupStep) (l2 : List StartupStep),
    (∀ s ∈ l1, failed s = false) → failed step = true →
    runStartup failed (l1 ++ step :: l2) =
      ((l1 ++ [step]).map StartupStep.call, .exited 1 step) := by
  intro l1
  induction l1 with
  | nil =>
      intro step l2 _ hfail
      simp [runStartup, hfail]
  | cons s l1 ih =>
      intro step l2 hok hfail
      have hs : failed s = false := hok s (by simp)
      simp [runStartup, hs, ih step l2 (fun x hx => hok x (by simp [hx])) hfail]

/-- C8: if during the startup sequence every operation before `step`
succeeds and `step` returns a failure status, the process exits
immediately with code 1 and a diagnostic naming `step` (the
`EXIT_ON_FAILURE` printf of file, line and the stringised call); the
submitted calls are exactly those up to and including the failing one —
no later startup step is executed and nothing is retried. -/
theorem startup_failure_exits (failed : StartupStep → Bool)
    (l1 : List StartupStep) (step : StartupStep) (l2 : List StartupStep)
    (hdecomp : HttpSession.startupSteps = l1 ++ step :: l2)
    (hok : ∀ s ∈ l1, failed s = false) (hfail : failed step = true) :
    HttpSession.construct failed = ((l1 ++ [step]).map StartupStep.call, .exited 1 step) := by
  rw [HttpSession.construct, hdecomp]
  exact runStartup_first_failure failed l1 step l2 hok hfail

/-- Witness for `startup_failure_exits` with the unidirectional
`SetParam` step failing. -/
theorem startup_failure_exits_witness :
    HttpSession.construct (fun s => s == .setParamUnidiCount) =
      ([.SessionOpen,
        .SetParam QUIC_PARAM_LEVEL_SESSION QUIC_PARAM_SESSION_PEER_BIDI_STREAM_COUNT 2
          MAX_HTTP_REQUESTS_PER_CONNECTION,
        .SetParam QUIC_PARAM_LEVEL_SESSION QUIC_PARAM_SESSION_PEER_UNIDI_STREAM_COUNT 2 1],
       .exited 1 .setParamUnidiCount) := by
  have h := startup_failure_exits (fun s => s == .setParamUnidiCount)
      [.sessionOpen, .setParamBidiCount] .setParamUnidiCount [.listenerOpen, .listenerStart]
      (by decide) (by decide) (by decide)
  simpa [StartupStep.call] using h

/-! ## Theorems about the connection reference-count lifecycle -/

